import Mathlib

/-!
Verification of the two image-resizing scripts of the repository
(`optimize_images.py` and `resize_gif.py`) and of the frontmatter
extractor described by the specification.

Shallow embedding conventions:
* A raster image is a record of its pixel dimensions, its colour mode
  string (Pillow's `img.mode`, e.g. "RGBA"), and an abstract pixel
  payload.  Pixel-level codec work is external to the repository (the
  scripts only call Pillow), so the Pillow operations used by the
  scripts are a parameter record `PIL`; the one law the scripts rely
  on is Pillow's documented contract that `resize(im, (w, h))` returns
  an image of size exactly `(w, h)`.
* The file system is an association list from path strings to file
  data; `os.path.getsize` is the length of the stored byte list.
* `print` calls are modelled as a log of structured messages carrying
  exactly the data interpolated into the Python format strings
  (the scripts print sizes as `bytes/1024` with one decimal; the log
  carries the underlying byte counts).
* Encoding an image to bytes may fail (Pillow's `save` can raise),
  so the encoders return `Except`; a run of a script yields the final
  file system, the log, and `Except.ok ()` for a normal exit or
  `Except.error e` for an uncaught exception (non-zero process exit).
-/

namespace ImageScripts

/-- A raster image: dimensions, Pillow mode string, abstract pixel payload. -/
structure Image where
  width : Nat
  height : Nat
  mode : String
  data : List Nat
deriving DecidableEq, Repr

instance : Inhabited Image := ⟨⟨0, 0, "", []⟩⟩

/-- A file on disk, as the scripts observe it: the decoded image
(`PIL.Image.open`) and the stored bytes (`os.path.getsize` is their length). -/
structure FileData where
  img : Image
  bytes : List Nat
deriving DecidableEq, Repr

/-- The file system seen by `optimize_images.py`: an association list from
path to file data; later writes shadow earlier bindings. -/
def FS : Type := List (String × FileData)

/-- Look a path up in the file system (`os.path.exists` / `Image.open`). -/
def fsGet : FS → String → Option FileData
  | [], _ => none
  | (n, d) :: rest, name => if name = n then some d else fsGet rest name

/-- Write a file (`img.save(filename, ...)` creating or replacing `filename`). -/
def fsSet (fs : FS) (name : String) (d : FileData) : FS := (name, d) :: fs

/-- Python's `str.endswith`, used by the save loop to pick the format. -/
def endswith (s suff : String) : Bool := suff.data.isSuffixOf s.data

/-- One printed message of `optimize_images.py`, carrying the data that the
corresponding `print` interpolates. -/
inductive Msg where
  /-- Printed as `Error: {input_path} not found` -/
  | errNotFound (path : String)
  /-- Printed as `Original: {img.size}, {getsize(input_path)}` -/
  | original (width height origBytes : Nat)
  /-- Printed as `Created: {filename} - {file_size}` -/
  | created (name : String) (fileBytes : Nat)
  /-- Printed as `Optimized original: profile-optimized.png - {optimized_size}` -/
  | optimizedOriginal (name : String) (fileBytes : Nat)
  /-- Printed as `Savings: {getsize(input_path) - optimized_size}` (carries both values
  the difference is computed from) -/
  | savings (origBytes optimizedBytes : Nat)
  /-- the closing `Optimization complete!` / next-steps messages -/
  | complete
deriving DecidableEq, Repr

/-- The Pillow operations the two scripts call.  `resize_w` / `resize_h` are
Pillow's contract that `img.resize((w, h))` has size exactly `(w, h)`.
Encoders may fail (`save` can raise), hence `Except`. -/
structure PIL where
  resize : Image → Nat → Nat → Image
  convertRGB : Image → Image
  alphaPasteWhite : Image → Image
  encodePNG : Image → Except String (List Nat)
  encodeWebP : Image → Except String (List Nat)
  resize_w : ∀ im w h, (resize im w h).width = w
  resize_h : ∀ im w h, (resize im w h).height = h

/-- A Pillow whose encoders always succeed (the normal library behaviour). -/
def PILtotal (lib : PIL) : Prop :=
  (∀ im, ∃ bs, lib.encodePNG im = Except.ok bs) ∧
  (∀ im, ∃ bs, lib.encodeWebP im = Except.ok bs)

/-- The `sizes` dict of `optimize_images.py` (Python dicts iterate in
insertion order). -/
def sizesList : List (String × Nat × Nat) :=
  [("profile-200.png", 200, 200),
   ("profile-400.png", 400, 400),
   ("profile-200.webp", 200, 200),
   ("profile-400.webp", 400, 400)]

/-- One `resized.save(filename, ...)` call: WebP when the name ends in
`.webp`, PNG otherwise; on success the file holds the image and its
encoded bytes. -/
def saveFile (lib : PIL) (fs : FS) (name : String) (im : Image) :
    Except String FS :=
  if endswith name ".webp" then
    (lib.encodeWebP im).map fun bs => fsSet fs name ⟨im, bs⟩
  else
    (lib.encodePNG im).map fun bs => fsSet fs name ⟨im, bs⟩

/-- The `for filename, size in sizes.items()` loop: resize, save, read the
written file's size back, print `Created: ...`.  An uncaught save error
aborts the loop, leaving the files already written. -/
def saveLoop (lib : PIL) (img : Image) :
    List (String × Nat × Nat) → FS → List Msg →
    FS × List Msg × Except String Unit
  | [], fs, log => (fs, log, Except.ok ())
  | (name, w, h) :: rest, fs, log =>
    let resized := lib.resize img w h
    match saveFile lib fs name resized with
    | Except.error e => (fs, log, Except.error e)
    | Except.ok fs' =>
      let sz := ((fsGet fs' name).map fun d => d.bytes.length).getD 0
      saveLoop lib img rest fs' (log ++ [Msg.created name sz])

/-- Lines 70-79 of `optimize_images.py`: after the resize loop, re-encode
the original image as `profile-optimized.png` and print the optimized size,
the savings, and the closing messages.  An encoding error propagates as an
uncaught exception. -/
def optimizeOriginalStep (lib : PIL) (img : Image) (origBytes : Nat)
    (fs1 : FS) (log1 : List Msg) : FS × List Msg × Except String Unit :=
  match lib.encodePNG img with
  | Except.error e => (fs1, log1, Except.error e)
  | Except.ok bs =>
    (fsSet fs1 "profile-optimized.png" ⟨img, bs⟩,
     log1 ++ [Msg.optimizedOriginal "profile-optimized.png" bs.length,
              Msg.savings origBytes bs.length,
              Msg.complete],
     Except.ok ())

/-- Lines 56-79 of `optimize_images.py`: the resize loop over `lst`
followed, when the loop completes, by the optimized-original step; a loop
error propagates, keeping the files the loop already wrote. -/
def optimizeSteps (lib : PIL) (img : Image) (origBytes : Nat)
    (lst : List (String × Nat × Nat)) (fs : FS) (log0 : List Msg) :
    FS × List Msg × Except String Unit :=
  match saveLoop lib img lst fs log0 with
  | (fs1, log1, Except.error e) => (fs1, log1, Except.error e)
  | (fs1, log1, Except.ok ()) => optimizeOriginalStep lib img origBytes fs1 log1

/-- The function `optimize_profile_image()` of `optimize_images.py`, lines 22-79.
Returns the final file system, the printed log, and the exit outcome.
The `img_rgb` computed by the RGBA branch mirrors source lines 40-47;
as in the source, it is not used afterwards. -/
def optimize_profile_image (lib : PIL) (fs : FS) :
    FS × List Msg × Except String Unit :=
  let input_path := "profile.png"
  match fsGet fs input_path with
  | none => (fs, [Msg.errNotFound input_path], Except.ok ())
  | some fd =>
    let img := fd.img
    let log0 := [Msg.original img.width img.height fd.bytes.length]
    let img_rgb :=
      if img.mode = "RGBA" then lib.alphaPasteWhite img else lib.convertRGB img
    optimizeSteps lib img fd.bytes.length sizesList fs log0

/-- The variant of `optimize_profile_image` with the RGBA-to-RGB branch
(source lines 40-47) removed; everything else is unchanged. -/
def optimize_profile_image_noRGBA (lib : PIL) (fs : FS) :
    FS × List Msg × Except String Unit :=
  let input_path := "profile.png"
  match fsGet fs input_path with
  | none => (fs, [Msg.errNotFound input_path], Except.ok ())
  | some fd =>
    let img := fd.img
    let log0 := [Msg.original img.width img.height fd.bytes.length]
    optimizeSteps lib img fd.bytes.length sizesList fs log0

/-- Loading the module `optimize_images.py`: the whole transformation sits
under `if __name__ == '__main__':` (source lines 81-82), so importing the
module (`isMain = false`) defines the function but performs no work. -/
def optimize_images_load (lib : PIL) (isMain : Bool) (fs : FS) :
    FS × List Msg × Except String Unit :=
  if isMain then optimize_profile_image lib fs else (fs, [], Except.ok ())

/-- The process exit status of a run outcome: a normal return exits 0, an
uncaught exception exits non-zero (CPython exits 1 on a traceback). -/
def exitCode : Except String Unit → Nat
  | Except.ok _ => 0
  | Except.error _ => 1

/-- An animated GIF as `resize_gif.py` observes it through Pillow: the
canvas size (`img.size`, constant across `seek`), the sequence of frames
(`seek`/`tell` positions; a decodable GIF has at least one frame), and the
optional `duration` entry of `img.info`. -/
structure GIF where
  width : Nat
  height : Nat
  frames : List Image
  duration : Option Nat
deriving DecidableEq, Repr

/-- The file system seen by `resize_gif.py` (its files are GIFs). -/
def GFS : Type := List (String × GIF)

/-- Look a GIF path up (`Image.open`). -/
def gfsGet : GFS → String → Option GIF
  | [], _ => none
  | (n, g) :: rest, name => if name = n then some g else gfsGet rest name

/-- Write a GIF (`frames[0].save(..., save_all=True, ...)`). -/
def gfsSet (fs : GFS) (name : String) (g : GIF) : GFS := (name, g) :: fs

/-- The printed message of `resize_gif.py`. -/
inductive GMsg where
  /-- Printed as `Created temporary GIF with {len(frames)} frames` -/
  | createdFrames (count : Nat)
deriving DecidableEq, Repr

/-- The `while frame_count < max_frames` loop of `resize_gif.py`
(lines 11-19): at position `pos` (always a valid frame position in a run,
since `seek` past the last frame raises `EOFError` and is caught), resize a
copy of the current frame to half the canvas size and append it; then
`img.seek(img.tell() + 1)` either advances or raises `EOFError`, ending the
loop.  `fuel` is `max_frames - frame_count`, so the loop also stops after
`max_frames` iterations. -/
def extractLoop (lib : PIL) (g : GIF) : Nat → Nat → List Image
  | _, 0 => []
  | pos, fuel + 1 =>
    match g.frames.get? pos with
    | none => []
    | some frame =>
      lib.resize frame (g.width / 2) (g.height / 2) ::
        (if pos + 1 < g.frames.length then extractLoop lib g (pos + 1) fuel
         else [])

/-- The `max_frames = 30` limit of `resize_gif.py`. -/
def max_frames : Nat := 30

/-- The whole of `resize_gif.py`, which runs at module top level: open
`assets/svg/pathway.gif` (an absent or undecodable file raises, exiting
non-zero), extract up to 30 half-size frames, save them as
`assets/svg/pathway_temp.gif` (with the source's `duration`, defaulting to
100), and print the frame count.  `frames[0]` on an empty frame list would
raise `IndexError`; a decodable GIF always yields at least one frame. -/
def resize_gif_run (lib : PIL) (fs : GFS) :
    GFS × List GMsg × Except String Unit :=
  match gfsGet fs "assets/svg/pathway.gif" with
  | none =>
    (fs, [], Except.error "No such file or directory: assets/svg/pathway.gif")
  | some g =>
    let frames := extractLoop lib g 0 max_frames
    match frames with
    | [] => (fs, [], Except.error "IndexError: list index out of range")
    | f0 :: rest =>
      let out : GIF := ⟨f0.width, f0.height, f0 :: rest,
                        some (g.duration.getD 100)⟩
      (gfsSet fs "assets/svg/pathway_temp.gif" out,
       [GMsg.createdFrames (f0 :: rest).length],
       Except.ok ())

/-- Loading the module `resize_gif.py`: all its statements are at module
top level, so the work runs whether or not the module is `__main__`. -/
def resize_gif_load (lib : PIL) (isMain : Bool) (fs : GFS) :
    GFS × List GMsg × Except String Unit :=
  resize_gif_run lib fs

/-! ### Concrete Pillow instances, used to evaluate the model on inputs -/

/-- A concrete resize: correct output dimensions, payload kept. -/
def pillowResize (im : Image) (w h : Nat) : Image := ⟨w, h, im.mode, im.data⟩

/-- A concrete Pillow whose encoders always succeed. -/
def pillow : PIL :=
  ⟨pillowResize,
   fun im => ⟨im.width, im.height, "RGB", im.data⟩,
   fun im => ⟨im.width, im.height, "RGB", im.data⟩,
   fun im => Except.ok (im.width :: im.height :: im.data),
   fun im => Except.ok (0 :: im.width :: im.height :: im.data),
   fun _ _ _ => rfl,
   fun _ _ _ => rfl⟩

/-- A concrete Pillow whose WebP encoder raises (e.g. Pillow built without
WebP support), to exercise a save failing partway through the loop. -/
def pillowNoWebP : PIL :=
  ⟨pillowResize,
   fun im => ⟨im.width, im.height, "RGB", im.data⟩,
   fun im => ⟨im.width, im.height, "RGB", im.data⟩,
   fun im => Except.ok (im.width :: im.height :: im.data),
   fun _ => Except.error "cannot write mode RGBA as WEBP",
   fun _ _ _ => rfl,
   fun _ _ _ => rfl⟩

/-- A sample profile image file. -/
def fdEx : FileData := ⟨⟨8, 8, "RGBA", [1, 2, 3]⟩, [9, 9, 9, 9]⟩

/-- A file system holding only `profile.png`. -/
def fsEx : FS := [("profile.png", fdEx)]

/-- A 10x10 single-frame GIF. -/
def gifA : GIF := ⟨10, 10, [⟨10, 10, "P", [1]⟩], some 40⟩

/-- A 20x20 single-frame GIF. -/
def gifB : GIF := ⟨20, 20, [⟨20, 20, "P", [2]⟩], none⟩

/-- A file system whose `assets/svg/pathway.gif` is `gifA`. -/
def gfsA : GFS := [("assets/svg/pathway.gif", gifA)]

/-- A file system whose `assets/svg/pathway.gif` is `gifB`. -/
def gfsB : GFS := [("assets/svg/pathway.gif", gifB)]

/-- A 5x7 GIF with 32 identical frames (more than `max_frames`). -/
def gif32 : GIF := ⟨5, 7, List.replicate 32 ⟨5, 7, "P", [3]⟩, some 80⟩

/-- A file system whose `assets/svg/pathway.gif` is `gif32`. -/
def gfs32 : GFS := [("assets/svg/pathway.gif", gif32)]

/-- The five output paths written by `optimize_profile_image`. -/
def outputNames : List String :=
  ["profile-200.png", "profile-400.png", "profile-200.webp",
   "profile-400.webp", "profile-optimized.png"]

/-- A second file system with the same `profile.png` as `fsEx` but a
different unrelated file (for determinism across environments). -/
def fsEx2 : FS := [("notes.txt", ⟨⟨1, 1, "RGB", [5]⟩, [7, 7]⟩),
                   ("profile.png", fdEx)]

/-- A second GIF file system with the same source GIF as `gfsA` but an
extra unrelated file. -/
def gfsA2 : GFS := [("assets/svg/other.gif", gifB),
                    ("assets/svg/pathway.gif", gifA)]

end ImageScripts

namespace Frontmatter

/-!
The frontmatter extractor belongs to the markdown pipeline, whose source
is not among the repository files provided; every definition in this
namespace is modelled from the specification (section 4.1).  A document
is modelled as its list of lines.
-/

/-- The single-quote character (written by code point to keep the source
free of quote-literal pitfalls). -/
def squote : Char := Char.ofNat 39

/-- Modelled from the spec: a frontmatter value is a plain string or, for
the `tags` key only, a list of strings. -/
inductive FMValue where
  | str (s : String)
  | strings (xs : List String)
deriving DecidableEq, Repr

/-- Whitespace for trimming key/value text. -/
def isSpaceChar (c : Char) : Bool := c = ' ' || c = '\t'

/-- Trim leading and trailing whitespace of a character list. -/
def trimChars (cs : List Char) : List Char :=
  ((cs.dropWhile isSpaceChar).reverse.dropWhile isSpaceChar).reverse

/-- Trim a string (structural, over its character list). -/
def trimStr (s : String) : String := ⟨trimChars s.data⟩

/-- Modelled from the spec: split a line on the FIRST `:`; `none` when the
line has no colon (such a line contributes nothing to the mapping). -/
def splitFirstColonChars : List Char → Option (List Char × List Char)
  | [] => none
  | c :: cs =>
    if c = ':' then some ([], cs)
    else (splitFirstColonChars cs).map fun p => (c :: p.1, p.2)

/-- The split-on-first-colon operation lifted to strings. -/
def splitFirstColon (l : String) : Option (String × String) :=
  (splitFirstColonChars l.data).map fun p => (⟨p.1⟩, ⟨p.2⟩)

/-- The trimmed key a key:value line contributes, if any. -/
def lineKey (l : String) : Option String :=
  (splitFirstColon l).map fun p => trimStr p.1

/-- The double-quote character. -/
def dquote : Char := Char.ofNat 34

/-- Modelled from the spec: strip one layer of surrounding matching single
or double quotes from a value. -/
def stripQuotes (s : String) : String :=
  if decide (2 ≤ s.data.length) &&
      ((decide (s.data.head? = some dquote) &&
          decide (s.data.getLast? = some dquote)) ||
        (decide (s.data.head? = some squote) &&
          decide (s.data.getLast? = some squote))) then
    ⟨(s.data.drop 1).dropLast⟩
  else s

/-- Modelled from the spec: parse a value for a given key.  For the key
`tags` with a value textually beginning with `[`, the outer brackets are
stripped and the inside split on commas, each element trimmed and
unquoted (the comma-split fallback; for frontmatter-shaped JSON arrays of
strings the JSON path yields the same list).  Every other value is stored
as a plain trimmed string with one layer of quotes stripped. -/
def parseFMValue (key v : String) : FMValue :=
  let v := trimStr v
  if key = "tags" && decide (v.data.head? = some '[') then
    FMValue.strings
      ((((v.data.drop 1).dropLast).splitOn ',' |>.map
          fun e => stripQuotes ⟨trimChars e⟩))
  else FMValue.str (stripQuotes v)

/-- Modelled from the spec: store a key in the mapping, overwriting any
earlier occurrence (duplicate keys: last occurrence wins). -/
def fmSet (m : List (String × FMValue)) (k : String) (v : FMValue) :
    List (String × FMValue) :=
  match m with
  | [] => [(k, v)]
  | (k0, v0) :: rest =>
    if k0 = k then (k0, v) :: rest else (k0, v0) :: fmSet rest k v

/-- Modelled from the spec: parse the lines between the two `---`
delimiters into the metadata mapping.  Lines without a colon are
skipped. -/
def parseBlock : List String → List (String × FMValue) →
    List (String × FMValue)
  | [], m => m
  | l :: ls, m =>
    match splitFirstColon l with
    | none => parseBlock ls m
    | some (k, rest) =>
      parseBlock ls (fmSet m (trimStr k) (parseFMValue (trimStr k) rest))

/-- Split a line list at the first `---` line (the closing delimiter):
returns the lines before it and the lines after it. -/
def splitAtClose : List String → Option (List String × List String)
  | [] => none
  | l :: ls =>
    if l = "---" then some ([], ls)
    else (splitAtClose ls).map fun p => (l :: p.1, p.2)

/-- Modelled from the spec: the frontmatter extractor.  A block delimited
by a `---` line anchored at the very start of the document and a closing
`---` line is parsed into the metadata mapping and removed (only this
first, anchored match); with no such block the result is `none` and the
document is returned unchanged. -/
def extractFrontmatter (doc : List String) :
    Option (List (String × FMValue)) × List String :=
  match doc with
  | [] => (none, [])
  | first :: rest =>
    if first = "---" then
      match splitAtClose rest with
      | some (blockLines, body) => (some (parseBlock blockLines []), body)
      | none => (none, first :: rest)
    else (none, first :: rest)

/-- A line is a well-formed key:value line: it has a colon (hence it is
not a bare `---` delimiter line). -/
def ValidFMLine (l : String) : Prop :=
  (splitFirstColon l).isSome = true ∧ l ≠ "---"

instance (l : String) : Decidable (ValidFMLine l) := by
  unfold ValidFMLine; infer_instance

/-- A sample frontmatter block. -/
def blockEx : List String := ["title: Hello", "author: A", "tags: [a, b]"]

/-- A sample document body. -/
def bodyEx : List String := ["# Hello", "Some *text*."]

end Frontmatter

namespace ImageScripts

theorem fsGet_fsSet (fs : FS) (n m : String) (d : FileData) :
    fsGet (fsSet fs n d) m = if m = n then some d else fsGet fs m := rfl

theorem endswith_200png : endswith "profile-200.png" ".webp" = false := by decide

theorem endswith_400png : endswith "profile-400.png" ".webp" = false := by decide

theorem endswith_200webp : endswith "profile-200.webp" ".webp" = true := by decide

theorem endswith_400webp : endswith "profile-400.webp" ".webp" = true := by decide

theorem optimize_run_spec (lib : PIL) (fs : FS) (fd : FileData)
    (hT : PILtotal lib) (h : fsGet fs "profile.png" = some fd) :
    ∃ p1 p2 w1 w2 p0 : List Nat,
      lib.encodePNG (lib.resize fd.img 200 200) = Except.ok p1 ∧
      lib.encodePNG (lib.resize fd.img 400 400) = Except.ok p2 ∧
      lib.encodeWebP (lib.resize fd.img 200 200) = Except.ok w1 ∧
      lib.encodeWebP (lib.resize fd.img 400 400) = Except.ok w2 ∧
      lib.encodePNG fd.img = Except.ok p0 ∧
      optimize_profile_image lib fs =
        (fsSet (fsSet (fsSet (fsSet (fsSet fs
            "profile-200.png" ⟨lib.resize fd.img 200 200, p1⟩)
            "profile-400.png" ⟨lib.resize fd.img 400 400, p2⟩)
            "profile-200.webp" ⟨lib.resize fd.img 200 200, w1⟩)
            "profile-400.webp" ⟨lib.resize fd.img 400 400, w2⟩)
            "profile-optimized.png" ⟨fd.img, p0⟩,
         [Msg.original fd.img.width fd.img.height fd.bytes.length,
          Msg.created "profile-200.png" p1.length,
          Msg.created "profile-400.png" p2.length,
          Msg.created "profile-200.webp" w1.length,
          Msg.created "profile-400.webp" w2.length,
          Msg.optimizedOriginal "profile-optimized.png" p0.length,
          Msg.savings fd.bytes.length p0.length,
          Msg.complete],
         Except.ok ()) := by
  obtain ⟨hP, hW⟩ := hT
  obtain ⟨p1, hp1⟩ := hP (lib.resize fd.img 200 200)
  obtain ⟨p2, hp2⟩ := hP (lib.resize fd.img 400 400)
  obtain ⟨w1, hw1⟩ := hW (lib.resize fd.img 200 200)
  obtain ⟨w2, hw2⟩ := hW (lib.resize fd.img 400 400)
  obtain ⟨p0, hp0⟩ := hP fd.img
  refine ⟨p1, p2, w1, w2, p0, hp1, hp2, hw1, hw2, hp0, ?_⟩
  simp [optimize_profile_image, optimizeSteps, optimizeOriginalStep, h,
    sizesList, saveLoop, saveFile, hp1, hp2, hw1, hw2, hp0, Except.map,
    fsGet, fsSet,
    endswith_200png, endswith_400png, endswith_200webp, endswith_400webp]


theorem pillow_total : PILtotal pillow :=
  ⟨fun im => ⟨_, rfl⟩, fun im => ⟨_, rfl⟩⟩

theorem saveFile_ok (lib : PIL) (fs : FS) (name : String) (im : Image)
    (fs' : FS) (h : saveFile lib fs name im = Except.ok fs') :
    ∃ bs, fs' = fsSet fs name ⟨im, bs⟩ := by
  unfold saveFile at h
  split at h
  · cases henc : lib.encodeWebP im with
    | error e => rw [henc] at h; exact absurd h (by simp [Except.map])
    | ok bs => rw [henc] at h; simp [Except.map] at h; exact ⟨bs, h.symm⟩
  · cases henc : lib.encodePNG im with
    | error e => rw [henc] at h; exact absurd h (by simp [Except.map])
    | ok bs => rw [henc] at h; simp [Except.map] at h; exact ⟨bs, h.symm⟩

theorem saveLoop_preserves (lib : PIL) (img : Image) :
    ∀ (lst : List (String × Nat × Nat)) (fs : FS) (log : List Msg)
      (name : String), (∀ e ∈ lst, e.1 ≠ name) →
      fsGet (saveLoop lib img lst fs log).1 name = fsGet fs name := by
  intro lst
  induction lst with
  | nil => intro fs log name _; rfl
  | cons e rest ih =>
    intro fs log name h
    obtain ⟨n, w, hgt⟩ := e
    have hn : n ≠ name := h _ (List.mem_cons_self _ _)
    rw [saveLoop]
    cases hsf : saveFile lib fs n (lib.resize img w hgt) with
    | error e => exact rfl
    | ok fs' =>
      obtain ⟨bs, rfl⟩ := saveFile_ok lib fs n _ fs' hsf
      rw [ih _ _ _ (fun e he => h e (List.mem_cons_of_mem _ he))]
      rw [fsGet_fsSet, if_neg (fun hc => hn hc.symm)]

theorem saveLoop_cons_ok (lib : PIL) (img : Image) (n : String)
    (w h : Nat) (rest : List (String × Nat × Nat)) (fs : FS)
    (log : List Msg) (fs' : FS)
    (hsf : saveFile lib fs n (lib.resize img w h) = Except.ok fs') :
    saveLoop lib img ((n, w, h) :: rest) fs log =
      saveLoop lib img rest fs'
        (log ++ [Msg.created n
          (((fsGet fs' n).map fun d => d.bytes.length).getD 0)]) := by
  simp only [saveLoop, hsf]

theorem optimizeOriginalStep_preserves (lib : PIL) (img : Image)
    (origBytes : Nat) (fs1 : FS) (log1 : List Msg) (name : String)
    (hopt : name ≠ "profile-optimized.png") :
    fsGet (optimizeOriginalStep lib img origBytes fs1 log1).1 name =
      fsGet fs1 name := by
  unfold optimizeOriginalStep
  cases henc : lib.encodePNG img with
  | error e => rfl
  | ok bs =>
    show fsGet (fsSet fs1 "profile-optimized.png" ⟨img, bs⟩) name =
      fsGet fs1 name
    rw [fsGet_fsSet, if_neg hopt]

theorem optimizeSteps_cons_ok (lib : PIL) (img : Image) (origBytes : Nat)
    (n : String) (w h : Nat) (rest : List (String × Nat × Nat)) (fs : FS)
    (log : List Msg) (fs' : FS)
    (hsf : saveFile lib fs n (lib.resize img w h) = Except.ok fs') :
    optimizeSteps lib img origBytes ((n, w, h) :: rest) fs log =
      optimizeSteps lib img origBytes rest fs'
        (log ++ [Msg.created n
          (((fsGet fs' n).map fun d => d.bytes.length).getD 0)]) := by
  unfold optimizeSteps
  rw [saveLoop_cons_ok lib img n w h rest fs log fs' hsf]

theorem optimizeSteps_preserves (lib : PIL) (img : Image) (origBytes : Nat)
    (lst : List (String × Nat × Nat)) (fs : FS) (log0 : List Msg)
    (name : String) (hn : ∀ e ∈ lst, e.1 ≠ name)
    (hopt : name ≠ "profile-optimized.png") :
    fsGet (optimizeSteps lib img origBytes lst fs log0).1 name =
      fsGet fs name := by
  have hpres := saveLoop_preserves lib img lst fs log0 name hn
  unfold optimizeSteps
  rcases hres : saveLoop lib img lst fs log0 with ⟨fs1, log1, out⟩
  rw [hres] at hpres
  cases out with
  | error e => exact hpres
  | ok u =>
    cases u
    rw [optimizeOriginalStep_preserves lib img origBytes fs1 log1 name hopt]
    exact hpres

theorem extractLoop_length (lib : PIL) (g : GIF) :
    ∀ (fuel pos : Nat), pos < g.frames.length →
      (extractLoop lib g pos fuel).length =
        min (g.frames.length - pos) fuel := by
  intro fuel
  induction fuel with
  | zero => intro pos h; simp [extractLoop]
  | succ fuel ih =>
    intro pos h
    cases hg : g.frames.get? pos with
    | none => exact absurd (List.get?_eq_none.mp hg) (Nat.not_le.mpr h)
    | some f =>
      rw [extractLoop, hg]
      by_cases hlt : pos + 1 < g.frames.length
      · rw [if_pos hlt]
        rw [List.length_cons, ih (pos + 1) hlt]
        omega
      · rw [if_neg hlt]
        rw [List.length_cons, List.length_nil]
        omega

theorem extractLoop_dims (lib : PIL) (g : GIF) :
    ∀ (fuel pos : Nat), ∀ im ∈ extractLoop lib g pos fuel,
      im.width = g.width / 2 ∧ im.height = g.height / 2 := by
  intro fuel
  induction fuel with
  | zero => intro pos im him; simp [extractLoop] at him
  | succ fuel ih =>
    intro pos im him
    cases hg : g.frames.get? pos with
    | none => rw [extractLoop, hg] at him; simp at him
    | some f =>
      rw [extractLoop, hg] at him
      rcases List.mem_cons.mp him with rfl | htail
      · exact ⟨lib.resize_w _ _ _, lib.resize_h _ _ _⟩
      · by_cases hlt : pos + 1 < g.frames.length
        · rw [if_pos hlt] at htail; exact ih (pos + 1) im htail
        · rw [if_neg hlt] at htail; simp at htail

theorem resize_gif_run_spec (lib : PIL) (g : GIF) (gfs : GFS)
    (hg : gfsGet gfs "assets/svg/pathway.gif" = some g)
    (hn : 1 ≤ g.frames.length) :
    ∃ f0 rest, extractLoop lib g 0 max_frames = f0 :: rest ∧
      resize_gif_run lib gfs =
        (gfsSet gfs "assets/svg/pathway_temp.gif"
           ⟨f0.width, f0.height, f0 :: rest, some (g.duration.getD 100)⟩,
         [GMsg.createdFrames (f0 :: rest).length],
         Except.ok ()) := by
  have hlen := extractLoop_length lib g max_frames 0 hn
  cases hfr : extractLoop lib g 0 max_frames with
  | nil =>
    rw [hfr] at hlen
    rw [max_frames] at hlen
    simp at hlen
    omega
  | cons f0 rest =>
    refine ⟨f0, rest, rfl, ?_⟩
    simp only [resize_gif_run, hg, hfr]

end ImageScripts

namespace Frontmatter

theorem splitAtClose_append (block body : List String)
    (h : ∀ l ∈ block, l ≠ "---") :
    splitAtClose (block ++ "---" :: body) = some (block, body) := by
  induction block with
  | nil => simp [splitAtClose]
  | cons l ls ih =>
    have hl : l ≠ "---" := h _ (List.mem_cons_self _ _)
    have ih2 := ih fun x hx => h x (List.mem_cons_of_mem _ hx)
    rw [List.cons_append, splitAtClose, if_neg hl, ih2]
    rfl

theorem fmSet_keys (m : List (String × FMValue)) (k k0 : String)
    (v : FMValue) :
    k0 ∈ (fmSet m k v).map Prod.fst ↔ k0 = k ∨ k0 ∈ m.map Prod.fst := by
  induction m with
  | nil => simp [fmSet]
  | cons e rest ih =>
    obtain ⟨k1, v1⟩ := e
    by_cases hk : k1 = k
    · subst hk; simp [fmSet]
    · simp [fmSet, hk, ih]; tauto

theorem parseBlock_keys (ls : List String) :
    ∀ (m : List (String × FMValue)) (k : String),
      k ∈ (parseBlock ls m).map Prod.fst ↔
        k ∈ m.map Prod.fst ∨ ∃ l ∈ ls, lineKey l = some k := by
  induction ls with
  | nil => intro m k; simp [parseBlock]
  | cons l ls ih =>
    intro m k
    have hcons : (∃ x ∈ l :: ls, lineKey x = some k) ↔
        lineKey l = some k ∨ ∃ x ∈ ls, lineKey x = some k := by
      constructor
      · rintro ⟨x, hx, hxk⟩
        rcases List.mem_cons.mp hx with rfl | hx2
        · exact Or.inl hxk
        · exact Or.inr ⟨x, hx2, hxk⟩
      · rintro (hk | ⟨x, hx, hxk⟩)
        · exact ⟨l, List.mem_cons_self _ _, hk⟩
        · exact ⟨x, List.mem_cons_of_mem _ hx, hxk⟩
    cases hs : splitFirstColon l with
    | none =>
      have hlk : lineKey l = none := by rw [lineKey, hs]; rfl
      have hstep : parseBlock (l :: ls) m = parseBlock ls m := by
        rw [parseBlock, hs]
      rw [hstep, ih, hcons, hlk]
      simp
    | some p =>
      obtain ⟨kl, rest⟩ := p
      have hlk : lineKey l = some (trimStr kl) := by rw [lineKey, hs]; rfl
      have hstep : parseBlock (l :: ls) m =
          parseBlock ls
            (fmSet m (trimStr kl) (parseFMValue (trimStr kl) rest)) := by
        rw [parseBlock, hs]
      rw [hstep, ih, hcons, hlk, fmSet_keys]
      constructor
      · rintro ((h1 | h2) | h3)
        · exact Or.inr (Or.inl (by rw [h1]))
        · exact Or.inl h2
        · exact Or.inr (Or.inr h3)
      · rintro (h1 | h2 | h3)
        · exact Or.inl (Or.inr h1)
        · exact Or.inl (Or.inl (Option.some_inj.mp h2).symm)
        · exact Or.inr h3

end Frontmatter

namespace ImageScripts

/-- **C10**: the RGB-flattened copy `img_rgb` computed by the
RGBA-conversion branch of `optimize_profile_image` is never used in any
output: all four resized files and the optimized copy are computed from the
original image, so the variant of the function with the branch removed
produces identical results (final file system, printed log, and outcome)
for every library and every input file system. -/
theorem c10_rgba_branch_dead (lib : PIL) (fs : FS) :
    optimize_profile_image lib fs = optimize_profile_image_noRGBA lib fs :=
  rfl

/-- **C3, counterexample**: importing `optimize_images.py` (module load
with `__name__` not `'__main__'`) performs no image work even when
`profile.png` exists — the file system is unchanged and nothing is printed
— while the same module run as a main program creates `profile-200.png`.
This refutes the claim that *both* image scripts execute their
transformation at load time. -/
theorem c3_counterexample :
    optimize_images_load pillow false fsEx = (fsEx, [], Except.ok ()) ∧
    fsGet (optimize_images_load pillow false fsEx).1 "profile-200.png" =
      none ∧
    fsGet (optimize_images_load pillow true fsEx).1 "profile-200.png" ≠
      none := by
  refine ⟨rfl, rfl, ?_⟩
  decide

/-- **C3, amended**: `resize_gif.py` executes its transformation at module
load time regardless of being main, while `optimize_images.py` performs no
work on import and runs `optimize_profile_image` only when invoked as the
main program. -/
theorem c3_amended_load_behavior (lib : PIL) (fs : FS) (gfs : GFS) :
    resize_gif_load lib false gfs = resize_gif_run lib gfs ∧
    resize_gif_load lib true gfs = resize_gif_run lib gfs ∧
    optimize_images_load lib false fs = (fs, [], Except.ok ()) ∧
    optimize_images_load lib true fs = optimize_profile_image lib fs :=
  ⟨rfl, rfl, rfl, rfl⟩

/-- **C4, counterexample**: with `profile.png` absent,
`optimize_profile_image` prints a diagnostic naming the missing path but
the branch returns normally, so the process exits with status 0 — not
non-zero as the claim requires of every missing-input run. -/
theorem c4_counterexample :
    (optimize_profile_image pillow []).2.1 =
      [Msg.errNotFound "profile.png"] ∧
    exitCode (optimize_profile_image pillow []).2.2 = 0 :=
  ⟨rfl, rfl⟩

/-- **C4, amended**: a missing input is fatal with a non-zero exit only for
`resize_gif.py` (uncaught exception naming the path); in
`optimize_images.py` the missing-`profile.png` branch prints a message
naming the path, leaves the file system unchanged, and the process exits
with status zero. -/
theorem c4_amended_missing_input (lib : PIL) (fs : FS) (gfs : GFS)
    (h : fsGet fs "profile.png" = none)
    (hg : gfsGet gfs "assets/svg/pathway.gif" = none) :
    optimize_profile_image lib fs =
      (fs, [Msg.errNotFound "profile.png"], Except.ok ()) ∧
    exitCode (optimize_profile_image lib fs).2.2 = 0 ∧
    resize_gif_run lib gfs =
      (gfs, [],
       Except.error "No such file or directory: assets/svg/pathway.gif") ∧
    exitCode (resize_gif_run lib gfs).2.2 = 1 := by
  have h1 : optimize_profile_image lib fs =
      (fs, [Msg.errNotFound "profile.png"], Except.ok ()) := by
    simp only [optimize_profile_image, h]
  have h2 : resize_gif_run lib gfs =
      (gfs, [],
       Except.error "No such file or directory: assets/svg/pathway.gif") := by
    simp only [resize_gif_run, hg]
  exact ⟨h1, by rw [h1]; rfl, h2, by rw [h2]; rfl⟩

/-- Witness for the amended C4, at concrete empty file systems. -/
theorem c4_witness :
    fsGet ([] : FS) "profile.png" = none ∧
    gfsGet ([] : GFS) "assets/svg/pathway.gif" = none ∧
    (optimize_profile_image pillow [] =
       ([], [Msg.errNotFound "profile.png"], Except.ok ()) ∧
     exitCode (optimize_profile_image pillow []).2.2 = 0 ∧
     resize_gif_run pillow [] =
       ([], [],
        Except.error "No such file or directory: assets/svg/pathway.gif") ∧
     exitCode (resize_gif_run pillow []).2.2 = 1) :=
  ⟨rfl, rfl, c4_amended_missing_input pillow [] [] rfl rfl⟩

end ImageScripts

namespace ImageScripts

/-- **C5, counterexample**: the outputs of `resize_gif.py` do not have
fixed dimensions independent of the input: a 10x10 source GIF yields a 5x5
output while a 20x20 source yields a 10x10 output, so no fixed constants
exist for its resized output. -/
theorem c5_counterexample :
    ((gfsGet (resize_gif_run pillow gfsA).1
        "assets/svg/pathway_temp.gif").map fun o => (o.width, o.height)) =
      some (5, 5) ∧
    ((gfsGet (resize_gif_run pillow gfsB).1
        "assets/svg/pathway_temp.gif").map fun o => (o.width, o.height)) =
      some (10, 10) ∧
    ((5, 5) : Nat × Nat) ≠ (10, 10) :=
  ⟨rfl, rfl, by decide⟩

/-- **C5, amended**: the four resized outputs of `optimize_profile_image`
have the fixed target dimensions 200x200 and 400x400 independent of the
input image, while every frame of the GIF output of `resize_gif.py` has
dimensions half the *input* canvas (floor division), which vary with the
input. -/
theorem c5_amended_dimensions (lib : PIL) (hT : PILtotal lib) (fs : FS)
    (fd : FileData) (h : fsGet fs "profile.png" = some fd)
    (g : GIF) (gfs : GFS)
    (hg : gfsGet gfs "assets/svg/pathway.gif" = some g)
    (hn : 1 ≤ g.frames.length) :
    ((fsGet (optimize_profile_image lib fs).1 "profile-200.png").map
        fun e => (e.img.width, e.img.height)) = some (200, 200) ∧
    ((fsGet (optimize_profile_image lib fs).1 "profile-400.png").map
        fun e => (e.img.width, e.img.height)) = some (400, 400) ∧
    ((fsGet (optimize_profile_image lib fs).1 "profile-200.webp").map
        fun e => (e.img.width, e.img.height)) = some (200, 200) ∧
    ((fsGet (optimize_profile_image lib fs).1 "profile-400.webp").map
        fun e => (e.img.width, e.img.height)) = some (400, 400) ∧
    ∃ out, gfsGet (resize_gif_run lib gfs).1 "assets/svg/pathway_temp.gif" =
        some out ∧
      ∀ im ∈ out.frames,
        im.width = g.width / 2 ∧ im.height = g.height / 2 := by
  obtain ⟨p1, p2, w1, w2, p0, hp1, hp2, hw1, hw2, hp0, hrun⟩ :=
    optimize_run_spec lib fs fd hT h
  obtain ⟨f0, rest, hfr, hgrun⟩ := resize_gif_run_spec lib g gfs hg hn
  rw [hrun, hgrun]
  refine ⟨?_, ?_, ?_, ?_,
    ⟨f0.width, f0.height, f0 :: rest, some (g.duration.getD 100)⟩, ?_, ?_⟩
  · simp [fsGet, fsSet, lib.resize_w, lib.resize_h]
  · simp [fsGet, fsSet, lib.resize_w, lib.resize_h]
  · simp [fsGet, fsSet, lib.resize_w, lib.resize_h]
  · simp [fsGet, fsSet, lib.resize_w, lib.resize_h]
  · simp [gfsGet, gfsSet]
  · intro im him
    exact extractLoop_dims lib g max_frames 0 im (by rw [hfr]; exact him)

/-- Witness for the amended C5 at `pillow`, `fsEx` and `gfsA`. -/
theorem c5_witness :
    PILtotal pillow ∧ fsGet fsEx "profile.png" = some fdEx ∧
    gfsGet gfsA "assets/svg/pathway.gif" = some gifA ∧
    1 ≤ gifA.frames.length ∧
    (((fsGet (optimize_profile_image pillow fsEx).1 "profile-200.png").map
        fun e => (e.img.width, e.img.height)) = some (200, 200) ∧
    ((fsGet (optimize_profile_image pillow fsEx).1 "profile-400.png").map
        fun e => (e.img.width, e.img.height)) = some (400, 400) ∧
    ((fsGet (optimize_profile_image pillow fsEx).1 "profile-200.webp").map
        fun e => (e.img.width, e.img.height)) = some (200, 200) ∧
    ((fsGet (optimize_profile_image pillow fsEx).1 "profile-400.webp").map
        fun e => (e.img.width, e.img.height)) = some (400, 400) ∧
    ∃ out, gfsGet (resize_gif_run pillow gfsA).1
        "assets/svg/pathway_temp.gif" = some out ∧
      ∀ im ∈ out.frames,
        im.width = gifA.width / 2 ∧ im.height = gifA.height / 2) :=
  ⟨pillow_total, rfl, rfl, by decide,
   c5_amended_dimensions pillow pillow_total fsEx fdEx rfl gifA gfsA rfl
     (by decide)⟩

/-- **C6, counterexample**: with a Pillow whose WebP encoder raises, the
run of `optimize_profile_image` on `fsEx` fails (exit 1) after having
already written `profile-200.png` and `profile-400.png`; the remaining
outputs are absent.  An incomplete set of output files is left on disk, so the
file outputs are not atomic with respect to failure. -/
theorem c6_counterexample :
    exitCode (optimize_profile_image pillowNoWebP fsEx).2.2 = 1 ∧
    (fsGet (optimize_profile_image pillowNoWebP fsEx).1
        "profile-200.png").isSome = true ∧
    (fsGet (optimize_profile_image pillowNoWebP fsEx).1
        "profile-400.png").isSome = true ∧
    (fsGet (optimize_profile_image pillowNoWebP fsEx).1
        "profile-200.webp").isSome = false ∧
    (fsGet (optimize_profile_image pillowNoWebP fsEx).1
        "profile-400.webp").isSome = false ∧
    (fsGet (optimize_profile_image pillowNoWebP fsEx).1
        "profile-optimized.png").isSome = false := by
  decide

/-- **C6, amended**: `optimize_profile_image` writes each output as soon as
its own save completes; whenever the first save (of `profile-200.png`)
succeeds, that file is present in the final file system regardless of
whether any later step fails, so a failure partway through leaves the
earlier outputs on disk. -/
theorem c6_amended_partial_outputs (lib : PIL) (fs : FS) (fd : FileData)
    (p1 : List Nat) (h : fsGet fs "profile.png" = some fd)
    (h1 : lib.encodePNG (lib.resize fd.img 200 200) = Except.ok p1) :
    fsGet (optimize_profile_image lib fs).1 "profile-200.png" =
      some ⟨lib.resize fd.img 200 200, p1⟩ := by
  have hsf : saveFile lib fs "profile-200.png"
      (lib.resize fd.img 200 200) =
      Except.ok (fsSet fs "profile-200.png"
        ⟨lib.resize fd.img 200 200, p1⟩) := by
    unfold saveFile
    rw [if_neg (by simp [endswith_200png]), h1]
    rfl
  simp only [optimize_profile_image, h, sizesList]
  rw [optimizeSteps_cons_ok lib fd.img fd.bytes.length "profile-200.png"
      200 200 _ fs _ _ hsf]
  rw [optimizeSteps_preserves lib fd.img fd.bytes.length _ _ _
      "profile-200.png" (by decide) (by decide)]
  simp [fsGet, fsSet]

/-- Witness for the amended C6 at `pillowNoWebP` and `fsEx` (a run that
does fail at the WebP step yet keeps `profile-200.png`). -/
theorem c6_witness :
    fsGet fsEx "profile.png" = some fdEx ∧
    pillowNoWebP.encodePNG (pillowNoWebP.resize fdEx.img 200 200) =
      Except.ok [200, 200, 1, 2, 3] ∧
    fsGet (optimize_profile_image pillowNoWebP fsEx).1 "profile-200.png" =
      some ⟨pillowNoWebP.resize fdEx.img 200 200, [200, 200, 1, 2, 3]⟩ :=
  ⟨rfl, rfl, c6_amended_partial_outputs pillowNoWebP fsEx fdEx
    [200, 200, 1, 2, 3] rfl rfl⟩

end ImageScripts

namespace ImageScripts

/-- **C1**: whenever `profile.png` exists (and the imaging library's
encoders behave normally), `optimize_profile_image` completes successfully,
producing the four resized outputs at the fixed dimensions 200x200 and
400x400 — each in PNG (encoded with the PNG encoder) and WebP (encoded with
the WebP encoder) — plus the re-encoded optimized copy
`profile-optimized.png` of the original image, and reports the original
byte size, each created file's byte size, the optimized copy's byte size,
and the savings pair. -/
theorem c1_outputs_and_reports (lib : PIL) (hT : PILtotal lib) (fs : FS)
    (fd : FileData) (h : fsGet fs "profile.png" = some fd) :
    (optimize_profile_image lib fs).2.2 = Except.ok () ∧
    Msg.original fd.img.width fd.img.height fd.bytes.length ∈
      (optimize_profile_image lib fs).2.1 ∧
    (∃ e, fsGet (optimize_profile_image lib fs).1 "profile-200.png" =
        some e ∧
      e.img = lib.resize fd.img 200 200 ∧
      e.img.width = 200 ∧ e.img.height = 200 ∧
      lib.encodePNG e.img = Except.ok e.bytes ∧
      Msg.created "profile-200.png" e.bytes.length ∈
        (optimize_profile_image lib fs).2.1) ∧
    (∃ e, fsGet (optimize_profile_image lib fs).1 "profile-400.png" =
        some e ∧
      e.img = lib.resize fd.img 400 400 ∧
      e.img.width = 400 ∧ e.img.height = 400 ∧
      lib.encodePNG e.img = Except.ok e.bytes ∧
      Msg.created "profile-400.png" e.bytes.length ∈
        (optimize_profile_image lib fs).2.1) ∧
    (∃ e, fsGet (optimize_profile_image lib fs).1 "profile-200.webp" =
        some e ∧
      e.img = lib.resize fd.img 200 200 ∧
      e.img.width = 200 ∧ e.img.height = 200 ∧
      lib.encodeWebP e.img = Except.ok e.bytes ∧
      Msg.created "profile-200.webp" e.bytes.length ∈
        (optimize_profile_image lib fs).2.1) ∧
    (∃ e, fsGet (optimize_profile_image lib fs).1 "profile-400.webp" =
        some e ∧
      e.img = lib.resize fd.img 400 400 ∧
      e.img.width = 400 ∧ e.img.height = 400 ∧
      lib.encodeWebP e.img = Except.ok e.bytes ∧
      Msg.created "profile-400.webp" e.bytes.length ∈
        (optimize_profile_image lib fs).2.1) ∧
    (∃ e, fsGet (optimize_profile_image lib fs).1 "profile-optimized.png" =
        some e ∧
      e.img = fd.img ∧
      lib.encodePNG fd.img = Except.ok e.bytes ∧
      Msg.optimizedOriginal "profile-optimized.png" e.bytes.length ∈
        (optimize_profile_image lib fs).2.1 ∧
      Msg.savings fd.bytes.length e.bytes.length ∈
        (optimize_profile_image lib fs).2.1) := by
  obtain ⟨p1, p2, w1, w2, p0, hp1, hp2, hw1, hw2, hp0, hrun⟩ :=
    optimize_run_spec lib fs fd hT h
  rw [hrun]
  refine ⟨rfl, by simp,
    ⟨⟨lib.resize fd.img 200 200, p1⟩, by simp [fsGet, fsSet], rfl,
      lib.resize_w _ _ _, lib.resize_h _ _ _, hp1, by simp⟩,
    ⟨⟨lib.resize fd.img 400 400, p2⟩, by simp [fsGet, fsSet], rfl,
      lib.resize_w _ _ _, lib.resize_h _ _ _, hp2, by simp⟩,
    ⟨⟨lib.resize fd.img 200 200, w1⟩, by simp [fsGet, fsSet], rfl,
      lib.resize_w _ _ _, lib.resize_h _ _ _, hw1, by simp⟩,
    ⟨⟨lib.resize fd.img 400 400, w2⟩, by simp [fsGet, fsSet], rfl,
      lib.resize_w _ _ _, lib.resize_h _ _ _, hw2, by simp⟩,
    ⟨⟨fd.img, p0⟩, by simp [fsGet, fsSet], rfl, hp0, by simp, by simp⟩⟩

/-- Witness for C1 at the concrete `pillow` library and `fsEx`. -/
theorem c1_witness :
    PILtotal pillow ∧ fsGet fsEx "profile.png" = some fdEx ∧
    ((optimize_profile_image pillow fsEx).2.2 = Except.ok () ∧
    Msg.original fdEx.img.width fdEx.img.height fdEx.bytes.length ∈
      (optimize_profile_image pillow fsEx).2.1 ∧
    (∃ e, fsGet (optimize_profile_image pillow fsEx).1 "profile-200.png" =
        some e ∧
      e.img = pillow.resize fdEx.img 200 200 ∧
      e.img.width = 200 ∧ e.img.height = 200 ∧
      pillow.encodePNG e.img = Except.ok e.bytes ∧
      Msg.created "profile-200.png" e.bytes.length ∈
        (optimize_profile_image pillow fsEx).2.1) ∧
    (∃ e, fsGet (optimize_profile_image pillow fsEx).1 "profile-400.png" =
        some e ∧
      e.img = pillow.resize fdEx.img 400 400 ∧
      e.img.width = 400 ∧ e.img.height = 400 ∧
      pillow.encodePNG e.img = Except.ok e.bytes ∧
      Msg.created "profile-400.png" e.bytes.length ∈
        (optimize_profile_image pillow fsEx).2.1) ∧
    (∃ e, fsGet (optimize_profile_image pillow fsEx).1 "profile-200.webp" =
        some e ∧
      e.img = pillow.resize fdEx.img 200 200 ∧
      e.img.width = 200 ∧ e.img.height = 200 ∧
      pillow.encodeWebP e.img = Except.ok e.bytes ∧
      Msg.created "profile-200.webp" e.bytes.length ∈
        (optimize_profile_image pillow fsEx).2.1) ∧
    (∃ e, fsGet (optimize_profile_image pillow fsEx).1 "profile-400.webp" =
        some e ∧
      e.img = pillow.resize fdEx.img 400 400 ∧
      e.img.width = 400 ∧ e.img.height = 400 ∧
      pillow.encodeWebP e.img = Except.ok e.bytes ∧
      Msg.created "profile-400.webp" e.bytes.length ∈
        (optimize_profile_image pillow fsEx).2.1) ∧
    (∃ e, fsGet (optimize_profile_image pillow fsEx).1
        "profile-optimized.png" = some e ∧
      e.img = fdEx.img ∧
      pillow.encodePNG fdEx.img = Except.ok e.bytes ∧
      Msg.optimizedOriginal "profile-optimized.png" e.bytes.length ∈
        (optimize_profile_image pillow fsEx).2.1 ∧
      Msg.savings fdEx.bytes.length e.bytes.length ∈
        (optimize_profile_image pillow fsEx).2.1)) :=
  ⟨pillow_total, rfl,
   c1_outputs_and_reports pillow pillow_total fsEx fdEx rfl⟩

/-- **C8**: for every GIF that opens successfully (at least one frame), the
frame-extraction loop of `resize_gif.py` terminates having collected
exactly `min (number of input frames) 30` frames — so between 1 and 30 —
and the saved output GIF contains exactly that many frames. -/
theorem c8_frame_extraction (lib : PIL) (g : GIF) (gfs : GFS)
    (hg : gfsGet gfs "assets/svg/pathway.gif" = some g)
    (hn : 1 ≤ g.frames.length) :
    max_frames = 30 ∧
    (extractLoop lib g 0 max_frames).length =
      min g.frames.length max_frames ∧
    1 ≤ (extractLoop lib g 0 max_frames).length ∧
    (extractLoop lib g 0 max_frames).length ≤ 30 ∧
    ∃ out, gfsGet (resize_gif_run lib gfs).1 "assets/svg/pathway_temp.gif" =
        some out ∧
      out.frames.length = min g.frames.length max_frames := by
  have hlen := extractLoop_length lib g max_frames 0 hn
  rw [Nat.sub_zero] at hlen
  obtain ⟨f0, rest, hfr, hgrun⟩ := resize_gif_run_spec lib g gfs hg hn
  refine ⟨rfl, hlen, ?_, ?_,
    ⟨f0.width, f0.height, f0 :: rest, some (g.duration.getD 100)⟩, ?_, ?_⟩
  · rw [hlen, max_frames]; omega
  · rw [hlen, max_frames]; omega
  · rw [hgrun]; simp [gfsGet, gfsSet]
  · show (f0 :: rest).length = _
    rw [← hfr, hlen]

/-- Witness for C8 at a 32-frame source GIF (the cap of 30 applies). -/
theorem c8_witness :
    gfsGet gfs32 "assets/svg/pathway.gif" = some gif32 ∧
    1 ≤ gif32.frames.length ∧
    (max_frames = 30 ∧
     (extractLoop pillow gif32 0 max_frames).length =
       min gif32.frames.length max_frames ∧
     1 ≤ (extractLoop pillow gif32 0 max_frames).length ∧
     (extractLoop pillow gif32 0 max_frames).length ≤ 30 ∧
     ∃ out, gfsGet (resize_gif_run pillow gfs32).1
         "assets/svg/pathway_temp.gif" = some out ∧
       out.frames.length = min gif32.frames.length max_frames) :=
  ⟨rfl, by decide, c8_frame_extraction pillow gif32 gfs32 rfl (by decide)⟩

/-- **C9**: for a source GIF of canvas size `(w, h)` with `w, h ≥ 2`, every
frame of the output GIF written by `resize_gif.py` has dimensions exactly
`(w / 2, h / 2)` under integer floor division. -/
theorem c9_output_frame_dims (lib : PIL) (g : GIF) (gfs : GFS)
    (hg : gfsGet gfs "assets/svg/pathway.gif" = some g)
    (hw : 2 ≤ g.width) (hh : 2 ≤ g.height) (hn : 1 ≤ g.frames.length) :
    ∃ out, gfsGet (resize_gif_run lib gfs).1 "assets/svg/pathway_temp.gif" =
        some out ∧
      ∀ im ∈ out.frames,
        im.width = g.width / 2 ∧ im.height = g.height / 2 := by
  obtain ⟨f0, rest, hfr, hgrun⟩ := resize_gif_run_spec lib g gfs hg hn
  rw [hgrun]
  refine ⟨⟨f0.width, f0.height, f0 :: rest, some (g.duration.getD 100)⟩,
    ?_, ?_⟩
  · simp [gfsGet, gfsSet]
  · intro im him
    exact extractLoop_dims lib g max_frames 0 im (by rw [hfr]; exact him)

/-- Witness for C9 at the 5x7 source GIF (odd dimensions round down to
2x3). -/
theorem c9_witness :
    gfsGet gfs32 "assets/svg/pathway.gif" = some gif32 ∧
    2 ≤ gif32.width ∧ 2 ≤ gif32.height ∧ 1 ≤ gif32.frames.length ∧
    (∃ out, gfsGet (resize_gif_run pillow gfs32).1
        "assets/svg/pathway_temp.gif" = some out ∧
      ∀ im ∈ out.frames,
        im.width = gif32.width / 2 ∧ im.height = gif32.height / 2) :=
  ⟨rfl, by decide, by decide, by decide,
   c9_output_frame_dims pillow gif32 gfs32 rfl (by decide) (by decide)
     (by decide)⟩

end ImageScripts

namespace ImageScripts

/-- **C7**: each image script is deterministic with no dependence on
persisted state: the run results are a function of the input file alone.
For any two file systems holding the same `profile.png`,
`optimize_profile_image` (with well-behaved encoders) prints the same log,
has the same outcome, and writes the same data to every output path; for
any two file systems holding the same source GIF, `resize_gif.py` prints
the same log and writes the same output GIF. -/
theorem c7_determinism (lib : PIL) (hT : PILtotal lib)
    (fs1 fs2 : FS) (fd : FileData)
    (h1 : fsGet fs1 "profile.png" = some fd)
    (h2 : fsGet fs2 "profile.png" = some fd)
    (gfs1 gfs2 : GFS) (g : GIF)
    (hg1 : gfsGet gfs1 "assets/svg/pathway.gif" = some g)
    (hg2 : gfsGet gfs2 "assets/svg/pathway.gif" = some g)
    (hn : 1 ≤ g.frames.length) :
    (optimize_profile_image lib fs1).2 =
      (optimize_profile_image lib fs2).2 ∧
    (∀ name ∈ outputNames,
      fsGet (optimize_profile_image lib fs1).1 name =
        fsGet (optimize_profile_image lib fs2).1 name) ∧
    (resize_gif_run lib gfs1).2 = (resize_gif_run lib gfs2).2 ∧
    gfsGet (resize_gif_run lib gfs1).1 "assets/svg/pathway_temp.gif" =
      gfsGet (resize_gif_run lib gfs2).1 "assets/svg/pathway_temp.gif" := by
  obtain ⟨p1, p2, w1, w2, p0, hp1, hp2, hw1, hw2, hp0, hrun1⟩ :=
    optimize_run_spec lib fs1 fd hT h1
  obtain ⟨q1, q2, x1, x2, q0, hq1, hq2, hx1, hx2, hq0, hrun2⟩ :=
    optimize_run_spec lib fs2 fd hT h2
  have e1 : p1 = q1 := by injection hp1.symm.trans hq1
  have e2 : p2 = q2 := by injection hp2.symm.trans hq2
  have e3 : w1 = x1 := by injection hw1.symm.trans hx1
  have e4 : w2 = x2 := by injection hw2.symm.trans hx2
  have e5 : p0 = q0 := by injection hp0.symm.trans hq0
  subst e1 e2 e3 e4 e5
  obtain ⟨f0, rest, hfr1, hgrun1⟩ := resize_gif_run_spec lib g gfs1 hg1 hn
  obtain ⟨f0b, restb, hfr2, hgrun2⟩ := resize_gif_run_spec lib g gfs2 hg2 hn
  rw [hfr1] at hfr2
  injection hfr2 with ef er
  subst ef er
  refine ⟨?_, ?_, ?_, ?_⟩
  · rw [hrun1, hrun2]
  · intro name hname
    fin_cases hname <;> rw [hrun1, hrun2] <;> simp [fsGet, fsSet]
  · rw [hgrun1, hgrun2]
  · rw [hgrun1, hgrun2]
    simp [gfsGet, gfsSet]

/-- Witness for C7: two different environments sharing the same inputs. -/
theorem c7_witness :
    PILtotal pillow ∧
    fsGet fsEx "profile.png" = some fdEx ∧
    fsGet fsEx2 "profile.png" = some fdEx ∧
    gfsGet gfsA "assets/svg/pathway.gif" = some gifA ∧
    gfsGet gfsA2 "assets/svg/pathway.gif" = some gifA ∧
    1 ≤ gifA.frames.length ∧
    ((optimize_profile_image pillow fsEx).2 =
       (optimize_profile_image pillow fsEx2).2 ∧
     (∀ name ∈ outputNames,
       fsGet (optimize_profile_image pillow fsEx).1 name =
         fsGet (optimize_profile_image pillow fsEx2).1 name) ∧
     (resize_gif_run pillow gfsA).2 = (resize_gif_run pillow gfsA2).2 ∧
     gfsGet (resize_gif_run pillow gfsA).1 "assets/svg/pathway_temp.gif" =
       gfsGet (resize_gif_run pillow gfsA2).1
         "assets/svg/pathway_temp.gif") :=
  ⟨pillow_total, rfl, by decide, rfl, by decide, by decide,
   c7_determinism pillow pillow_total fsEx fsEx2 fdEx rfl (by decide)
     gfsA gfsA2 gifA rfl (by decide) (by decide)⟩

end ImageScripts

namespace Frontmatter

/-- **C2** (the frontmatter extractor belongs to the markdown pipeline,
whose source is not among the provided files; the extractor is modelled
from the specification): for any document assembled by concatenating a
`---` line, valid key:value lines, a closing `---` line, and arbitrary
body lines, extraction returns the metadata mapping parsed from the block
— whose keys are exactly the keys of the block's lines — together with the
body exactly as it was, the frontmatter fully stripped and nothing else
altered. -/
theorem c2_frontmatter_roundtrip (block body : List String)
    (hv : ∀ l ∈ block, ValidFMLine l) :
    extractFrontmatter ("---" :: (block ++ "---" :: body)) =
      (some (parseBlock block []), body) ∧
    ∀ k, k ∈ (parseBlock block []).map Prod.fst ↔
      ∃ l ∈ block, lineKey l = some k := by
  have hnd : ∀ l ∈ block, l ≠ "---" := fun l hl => (hv l hl).2
  constructor
  · simp [extractFrontmatter, splitAtClose_append block body hnd]
  · intro k
    rw [parseBlock_keys]
    simp

/-- Witness for C2 at a concrete three-line block and two-line body. -/
theorem c2_witness :
    (∀ l ∈ blockEx, ValidFMLine l) ∧
    (extractFrontmatter ("---" :: (blockEx ++ "---" :: bodyEx)) =
       (some (parseBlock blockEx []), bodyEx) ∧
     ∀ k, k ∈ (parseBlock blockEx []).map Prod.fst ↔
       ∃ l ∈ blockEx, lineKey l = some k) :=
  ⟨by decide, c2_frontmatter_roundtrip blockEx bodyEx (by decide)⟩

end Frontmatter
